import Mathlib

/-!
Verification of the Live Stats Synchronization and Fallback Derivation
Engine of the DevSecOps dashboard (frontend React application).

The development shallowly embeds the state and the operations of two
components:

* `Charts` (file Charts.jsx): the chart coordinator, with its fetch
  routine `fetchChartData`, the fallback synthesizer
  `generateDataFromStats`, the 30-second polling interval, the manual
  refresh button, and the stats-change effect.
* `App` (file App.jsx): the alert log (`addAlert`), the status probe
  (`checkSystemStatus`) and the WebSocket message handler.

Conventions of the embedding:

* JavaScript numbers holding counters are `Nat`; the division in
  `Math.floor(x / 10)` becomes `Nat` division; `Math.ceil` applied to a
  product with the decimal weights 0.4 / 0.3 / 0.2 / 0.1 and to the
  anomaly-rate products is modelled with exact rational arithmetic and
  `Int.ceil` (for the magnitudes involved the binary doubles of the
  source round to the same ceilings, since those products are never
  within a double rounding error of a wrong integer).
* `new Date()` / `Date.now()` is an ambient-clock read: it is made an
  explicit argument `now : Nat` (milliseconds).
* `toLocaleTimeString` with 2-digit hour and minute is abstracted as the
  minute of the day of the instant, `fmtTime`.
* React state updates are explicit record updates.  A render effect with
  a dependency list re-runs exactly when one of its dependencies changed
  in the step, matching React's reference comparison: the parent always
  constructs a fresh `stats` object, so a `stats` prop change always
  re-runs the `[stats, useSessionData]` effect, while a completion step
  re-runs it only when `useSessionData` changed.
* Closure capture is explicit: every in-flight `fetchChartData` call
  carries the `stats` value captured by the closure that issued it.  The
  30-second interval is registered once on mount with the mount render's
  closure, so its fetches always carry the mount-time stats; the refresh
  button calls the current render's closure, so its fetches carry the
  current stats prop.
* Fallible operations (`fetch`, `JSON.parse`) are `Except`-valued; their
  outcomes are events fed to the step function.
-/

namespace DevSecOps

/-- LocalStats: the `stats` object of App.jsx (`totalLogs`, `normalCount`,
`suspiciousCount`), passed to `Charts` as a prop and used as the seed of
fallback synthesis. -/
structure Stats where
  totalLogs : Nat
  normalCount : Nat
  suspiciousCount : Nat
deriving DecidableEq

/-- Minute of the day of an instant given in milliseconds: the
abstraction of `toLocaleTimeString` with 2-digit hour and minute. -/
def fmtTime (t : Nat) : Nat := t / 60000 % 1440

/-- The `timeline_data` section of a chart dataset
(Charts.jsx / the `GET /real-time-chart-data` payload). -/
structure TimelineData where
  timestamps : List Nat
  normal_counts : List Nat
  anomaly_counts : List Nat
deriving DecidableEq

/-- The `threat_categories` section of a chart dataset. -/
structure ThreatCategories where
  categories : List String
  counts : List Int
deriving DecidableEq

/-- The `hourly_patterns` section of a chart dataset. -/
structure HourlyPatterns where
  time_periods : List String
  threat_counts : List Int
deriving DecidableEq

/-- The object returned by `generateDataFromStats` in Charts.jsx. -/
structure GenData where
  timeline_data : TimelineData
  threat_categories : ThreatCategories
  hourly_patterns : HourlyPatterns
  data_source : String
deriving DecidableEq

/-- Function `generateDataFromStats(currentStats)` of Charts.jsx.  The source
reads the clock once (`const now = new Date()`); here `now` is the
explicit clock argument, in milliseconds.  The loop
`for (let i = 9; i >= 0; i--)` is the map over `[9, 8, ..., 0]`;
`Math.floor(x / 10)` on counters is `Nat` division; `Math.ceil` of the
weight products is `Int.ceil` over `ℚ` (0.4 = 4/10 and so on, and the
default rate 0.02 = 1/50).  `currentStats.normalCount || 0` and
`currentStats.suspiciousCount || 0` are the identity on `Nat` (0 maps
to 0). -/
def generateDataFromStats (currentStats : Stats) (now : Nat) : GenData :=
  let baseAnomalyRate : ℚ :=
    if currentStats.totalLogs > 0 then
      (currentStats.suspiciousCount : ℚ) / (currentStats.totalLogs : ℚ)
    else 1/50
  let idxs : List Nat := [9, 8, 7, 6, 5, 4, 3, 2, 1, 0]
  let timestamps := idxs.map (fun i => fmtTime (now - i * 2 * 60 * 1000))
  let normalCounts := idxs.map (fun i =>
    if i = 0 then currentStats.normalCount else currentStats.normalCount / 10)
  let anomalyCounts := idxs.map (fun i =>
    if i = 0 then currentStats.suspiciousCount else currentStats.suspiciousCount / 10)
  let totalThreats : Nat := max currentStats.suspiciousCount 1
  { timeline_data :=
      { timestamps := timestamps
        normal_counts := normalCounts
        anomaly_counts := anomalyCounts }
    threat_categories :=
      { categories := ["Failed Authentication", "Off-Hours Activity",
                       "External Access", "System Anomalies"]
        counts := [⌈(totalThreats : ℚ) * (4/10)⌉, ⌈(totalThreats : ℚ) * (3/10)⌉,
                   ⌈(totalThreats : ℚ) * (2/10)⌉, ⌈(totalThreats : ℚ) * (1/10)⌉] }
    hourly_patterns :=
      { time_periods := ["00-03", "03-06", "06-09", "09-12",
                         "12-15", "15-18", "18-21", "21-24"]
        threat_counts := [⌈baseAnomalyRate * 12⌉, ⌈baseAnomalyRate * 8⌉,
                          ⌈baseAnomalyRate * 3⌉, ⌈baseAnomalyRate * 2⌉,
                          ⌈baseAnomalyRate * 1⌉, ⌈baseAnomalyRate * 2⌉,
                          ⌈baseAnomalyRate * 4⌉, ⌈baseAnomalyRate * 6⌉] }
    data_source := "generated_from_stats" }

/-- The `session_stats` object of the `GET /real-time-chart-data`
payload. -/
structure SessionStats where
  total_logs_processed : Nat
  total_anomalies_detected : Nat
  normal_activities : Nat
  threat_rate_percent : ℚ
  session_id : Option String
deriving DecidableEq

/-- The decoded JSON body of a successful `GET /real-time-chart-data`
response, stored verbatim by the success branch of `fetchChartData`. -/
structure ServerPayload where
  last_updated : Nat
  session_stats : SessionStats
  timeline_data : TimelineData
  threat_categories : ThreatCategories
  hourly_patterns : HourlyPatterns
deriving DecidableEq

/-- The value of the `chartData` state variable of Charts.jsx: either
the verbatim decoded server payload (set by the success branch) or an
object built by `generateDataFromStats` (set by the failure branch and
the stats-change effect).  In the source both shapes are untagged JSON
objects; the constructor records the provenance. -/
inductive ChartData where
  | remote (p : ServerPayload)
  | generated (g : GenData)
deriving DecidableEq

/-- The `connectionStatus` state variable of Charts.jsx. -/
inductive ConnStatus where
  | connecting
  | connected
  | error
deriving DecidableEq

/-- Outcome of one `fetch('/real-time-chart-data')` round trip as seen
by `fetchChartData`: the decoded payload, or any thrown error (network
failure, non-2xx status, JSON decode failure). -/
inductive FetchOutcome where
  | success (p : ServerPayload)
  | failure
deriving DecidableEq

/-- The state of the `Charts` component.  `pending` lists the in-flight
`fetchChartData` calls, each tagged with the `stats` value captured by
the closure that issued it; `mountStats` is the stats captured by the
mount render, whose closure the 30-second interval invokes forever. -/
structure ChartsState where
  chartData : Option ChartData
  isLoading : Bool
  connectionStatus : ConnStatus
  useSessionData : Bool
  statsProp : Stats
  mountStats : Stats
  pending : List Stats
deriving DecidableEq

/-- The state of `Charts` right after mount: the `useState` initial
values (`chartData = null`, `isLoading = true`,
`connectionStatus = 'connecting'`, `useSessionData = true`) and the
mount effect's immediate `fetchChartData()` call, which captures the
mount-time stats prop.  The `[stats, useSessionData]` effect also runs
on mount but its guard `!useSessionData` is false. -/
def mountState (s0 : Stats) : ChartsState :=
  { chartData := none
    isLoading := true
    connectionStatus := .connecting
    useSessionData := true
    statsProp := s0
    mountStats := s0
    pending := [s0] }

/-- Events driving the `Charts` component.  `complete cap outcome t`
is the continuation of the in-flight fetch whose closure captured
`cap`, run at clock time `t`; `statsChange ns t` is a new `stats` prop
from the parent at clock time `t`. -/
inductive ChartsEvent where
  | timerTick
  | manualRefresh
  | statsChange (ns : Stats) (t : Nat)
  | complete (cap : Stats) (outcome : FetchOutcome) (t : Nat)

/-- One step of the `Charts` component, straight from the source:

* `timerTick`: `setInterval(fetchChartData, 30000)` registered in the
  mount effect calls the mount render's `fetchChartData`
  unconditionally — there is no in-flight guard — so a fetch carrying
  `mountStats` starts and `isLoading` becomes true.
* `manualRefresh`: the refresh button has `disabled={isLoading}`, so
  the click does nothing while loading; otherwise the current render's
  `fetchChartData` starts a fetch carrying `statsProp`.
* `statsChange`: the parent re-renders `Charts` with a fresh stats
  object; the `[stats, useSessionData]` effect re-runs, and when
  `useSessionData` is false it sets `chartData` to
  `generateDataFromStats(stats)`.
* `complete _ (success p) _`: `setChartData(data)` stores the decoded
  payload verbatim, `connectionStatus` becomes `'connected'`,
  `useSessionData` becomes true, `finally` clears `isLoading`; the
  effect re-runs when `useSessionData` changed but its guard
  `!useSessionData` is now false.
* `complete cap failure t`: `connectionStatus` becomes `'error'`,
  `useSessionData` becomes false, `setChartData(generateDataFromStats(stats))`
  uses the *captured* stats of that closure, `finally` clears
  `isLoading`; then, when `useSessionData` changed (it was true), the
  `[stats, useSessionData]` effect re-runs and overwrites `chartData`
  with `generateDataFromStats` of the current stats prop. -/
def chartsStep (s : ChartsState) : ChartsEvent → ChartsState
  | .timerTick =>
      { s with isLoading := true, pending := s.mountStats :: s.pending }
  | .manualRefresh =>
      if s.isLoading then s
      else { s with isLoading := true, pending := s.statsProp :: s.pending }
  | .statsChange ns t =>
      if s.useSessionData then { s with statsProp := ns }
      else { s with statsProp := ns
                    chartData := some (.generated (generateDataFromStats ns t)) }
  | .complete cap (.success p) _ =>
      if cap ∈ s.pending then
        { s with pending := s.pending.erase cap
                 chartData := some (.remote p)
                 connectionStatus := .connected
                 useSessionData := true
                 isLoading := false }
      else s
  | .complete cap .failure t =>
      if cap ∈ s.pending then
        let s1 := { s with pending := s.pending.erase cap
                           connectionStatus := .error
                           useSessionData := false
                           chartData := some (.generated (generateDataFromStats cap t))
                           isLoading := false }
        if s.useSessionData then
          { s1 with chartData := some (.generated (generateDataFromStats s.statsProp t)) }
        else s1
      else s

/-- A trace of the `Charts` component from a given state. -/
def chartsRun (s : ChartsState) (es : List ChartsEvent) : ChartsState :=
  es.foldl chartsStep s

/-- One entry of the alert log of App.jsx. -/
structure Alert where
  id : Nat
  type : String
  message : String
  timestamp : Nat
deriving DecidableEq

/-- Function `addAlert` of App.jsx: `setAlerts(prev => [alert, ...prev.slice(0, 4)])`,
prepending the new entry and keeping at most the first four previous
ones. -/
def addAlert (a : Alert) (prev : List Alert) : List Alert :=
  a :: prev.take 4

/-- The alert log after a sequence of `addAlert` calls starting from the
initial empty `useState([])` log, applied in order. -/
def runAlerts (rs : List Alert) : List Alert :=
  rs.foldl (fun acc a => addAlert a acc) []

/-- The decoded JSON of a WebSocket message as used by `ws.onmessage`
in App.jsx: only the `type` field is inspected. -/
structure WsMessage where
  type : String
deriving DecidableEq

/-- The raw data of a WebSocket event: either well-formed JSON decoding
to a message object, or a malformed body on which `JSON.parse` throws. -/
inductive WsRaw where
  | json (m : WsMessage)
  | malformed
deriving DecidableEq

/-- Call `JSON.parse(event.data)` as used by `ws.onmessage`: yields the
decoded message or throws. -/
def jsonParse : WsRaw → Except Unit WsMessage
  | .json m => .ok m
  | .malformed => .error ()

/-- The `ws.onmessage` handler of App.jsx, returning the number of
refresh pulls (`fetchSessionStats()` calls) it issues, or the error it
raises.  `JSON.parse` is not wrapped in any try/catch inside the
handler, so a parse failure propagates out of the handler. -/
def onmessage (raw : WsRaw) : Except Unit Nat :=
  match jsonParse raw with
  | .error e => .error e
  | .ok message =>
      .ok (if message.type = "session_detection_complete" ∨
              message.type = "periodic_update" ∨
              message.type = "stats_update" then 1 else 0)

/-- The decoded body of the advanced status probe (`GET /`):
`real_data_enabled` is `none` when the field is absent (JavaScript
`undefined`). -/
structure AdvancedStatus where
  real_data_enabled : Option Bool
  model_trained : Option Bool
  version : Option String
deriving DecidableEq

/-- The decoded body of the basic status probe (`GET /status`). -/
structure BasicStatus where
  system_status : String
  model_trained : Option Bool
deriving DecidableEq

/-- The `systemStatus` state object of App.jsx. -/
structure SystemStatus where
  online : Bool
  modelTrained : Bool
  realDataEnabled : Bool
  version : String
deriving DecidableEq

/-- The second try/catch of `checkSystemStatus` in App.jsx, around
`apiService.getStatus()`.  The source computes
`online: status.system_status === 'healthy' || true`, and `x || false`
on a possibly-absent boolean field is `Option.getD x false`.  When the
probe throws, every flag is cleared and the version is `'Unknown'`. -/
def checkBasicStatus : Except Unit BasicStatus → SystemStatus
  | .ok st =>
      { online := (st.system_status == "healthy") || true
        modelTrained := st.model_trained.getD false
        realDataEnabled := false
        version := "1.0.0" }
  | .error _ =>
      { online := false
        modelTrained := false
        realDataEnabled := false
        version := "Unknown" }

/-- Function `checkSystemStatus` of App.jsx, as a function of the outcomes of
the two probes.  The advanced branch returns only when
`real_data_enabled !== undefined`; otherwise (the probe threw, or the
field is absent) control falls through to the basic probe. -/
def checkSystemStatus (adv : Except Unit AdvancedStatus)
    (basic : Except Unit BasicStatus) : SystemStatus :=
  match adv with
  | .ok a =>
      match a.real_data_enabled with
      | some rde =>
          { online := true
            modelTrained := a.model_trained.getD false
            realDataEnabled := rde
            version := a.version.getD "2.0.0" }
      | none => checkBasicStatus basic
  | .error _ => checkBasicStatus basic

/-! ## Helper lemmas -/

/-- Evaluation rule for concrete rational ceilings. -/
theorem ceilQ_eval (q : ℚ) (z : ℤ) (h1 : (z : ℚ) - 1 < q) (h2 : q ≤ (z : ℚ)) :
    ⌈q⌉ = z :=
  Int.ceil_eq_iff.mpr ⟨h1, h2⟩

/-- Appending one record to an alert-log run. -/
theorem runAlerts_append (l : List Alert) (a : Alert) :
    runAlerts (l ++ [a]) = addAlert a (runAlerts l) := by
  simp [runAlerts, List.foldl_append]

/-- Closed form of the alert log: the most recent five records,
newest first. -/
theorem runAlerts_eq (rs : List Alert) : runAlerts rs = rs.reverse.take 5 := by
  induction rs using List.reverseRecOn with
  | nil => rfl
  | append_singleton l a ih =>
    rw [runAlerts_append, ih, addAlert, List.reverse_append]
    simp [List.take_take]

/-! ## Claim theorems -/

/-- C7: starting from the empty log, any sequence of `addAlert` calls
leaves the log holding exactly the `min n 5` most recent entries in
newest-first order; in particular the log never exceeds 5 entries and
inserting into a full log evicts the oldest entry. -/
theorem alert_log_bounded (rs : List Alert) :
    runAlerts rs = rs.reverse.take 5 ∧
    (runAlerts rs).length = min rs.length 5 := by
  refine ⟨runAlerts_eq rs, ?_⟩
  rw [runAlerts_eq]
  simp [Nat.min_comm]

/-- C10: in the status-classification fallback, whenever the advanced
probe fails or lacks `real_data_enabled` and the basic `/status`
request decodes, the system is classified online regardless of
`system_status` (the guard `=== 'healthy' || true` is identically
true); `online` is false exactly when the advanced path yields no
distinguishing field and the basic request also fails. -/
theorem status_fallback_online (adv : Except Unit AdvancedStatus)
    (basic : Except Unit BasicStatus) :
    ((adv = .error () ∨ ∃ a, adv = .ok a ∧ a.real_data_enabled = none) →
      ((∀ st, basic = .ok st → (checkSystemStatus adv basic).online = true) ∧
       (basic = .error () → (checkSystemStatus adv basic).online = false))) ∧
    ((checkSystemStatus adv basic).online = false →
      ((adv = .error () ∨ ∃ a, adv = .ok a ∧ a.real_data_enabled = none) ∧
        basic = .error ())) := by
  cases adv with
  | error e =>
    cases basic with
    | ok st => simp [checkSystemStatus, checkBasicStatus]
    | error e2 => simp [checkSystemStatus, checkBasicStatus]
  | ok a =>
    cases h : a.real_data_enabled with
    | some rde =>
      cases basic <;> simp [checkSystemStatus, checkBasicStatus, h]
    | none =>
      cases basic <;> simp [checkSystemStatus, checkBasicStatus, h]

/-- Witness for C10: with the advanced probe failing, a basic response
whose `system_status` is not `'healthy'` is still classified online,
and two failing probes yield offline. -/
theorem status_fallback_online_witness :
    (checkSystemStatus (.error ()) (.ok ⟨"degraded", none⟩)).online = true ∧
    (checkSystemStatus (.error ()) (.error ())).online = false := by
  constructor
  · exact ((status_fallback_online (.error ()) (.ok ⟨"degraded", none⟩)).1
      (Or.inl rfl)).1 ⟨"degraded", none⟩ rfl
  · exact ((status_fallback_online (.error ()) (.error ())).1 (Or.inl rfl)).2 rfl

/-- C9 counterexample: on a malformed (non-JSON) push message the
handler does not complete normally — `JSON.parse` throws and the error
propagates out of `onmessage`, contradicting "a malformed message is
likewise ignorable, never fatal to the handler". -/
theorem onmessage_malformed_raises :
    ¬ ∃ n, onmessage WsRaw.malformed = Except.ok n := by
  intro h
  obtain ⟨n, hn⟩ := h
  simp [onmessage, jsonParse] at hn

/-- C9 amended: a push message of kind `session_detection_complete`,
`periodic_update` or `stats_update` triggers exactly one refresh pull;
a message of any other kind triggers none and raises no error; but a
malformed (non-JSON) message makes the handler raise the parse error. -/
theorem onmessage_dispatch (m : WsMessage) :
    ((m.type = "session_detection_complete" ∨ m.type = "periodic_update" ∨
        m.type = "stats_update") → onmessage (.json m) = .ok 1) ∧
    (¬(m.type = "session_detection_complete" ∨ m.type = "periodic_update" ∨
        m.type = "stats_update") → onmessage (.json m) = .ok 0) ∧
    onmessage .malformed = .error () := by
  refine ⟨fun h => ?_, fun h => ?_, rfl⟩
  · simp [onmessage, jsonParse, h]
  · simp [onmessage, jsonParse, h]

/-- Witness for C9 (amended): a `stats_update` message issues one pull;
an `unknown_kind` message issues none and raises nothing. -/
theorem onmessage_dispatch_witness :
    onmessage (.json ⟨"stats_update"⟩) = .ok 1 ∧
    onmessage (.json ⟨"unknown_kind"⟩) = .ok 0 := by
  constructor
  · exact (onmessage_dispatch ⟨"stats_update"⟩).1 (Or.inr (Or.inr rfl))
  · exact (onmessage_dispatch ⟨"unknown_kind"⟩).2.1 (by simp)

/-- C1 counterexample: two pulls in flight is reachable — a 30-second
timer tick arriving while the mount fetch is still in progress starts a
second fetch, because `fetchChartData` has no in-flight guard. -/
theorem concurrent_pulls_reachable :
    ¬ (chartsRun (mountState ⟨0, 0, 0⟩) [ChartsEvent.timerTick]).pending.length ≤ 1 := by
  decide

/-- C1 amended: pulls are not serialized.  Only the manual refresh
trigger is dropped while a fetch is loading (the refresh button is
disabled); a timer tick always starts one more fetch, even while
another is in flight. -/
theorem refresh_dropped_timer_not (s : ChartsState) :
    (s.isLoading = true → chartsStep s .manualRefresh = s) ∧
    (chartsStep s .timerTick).pending.length = s.pending.length + 1 := by
  constructor
  · intro h
    simp [chartsStep, h]
  · simp [chartsStep]

/-- Witness for C1 (amended): from the mount state (one fetch in
flight, loading), a manual refresh is a no-op and a timer tick makes a
second pull. -/
theorem refresh_dropped_timer_not_witness :
    chartsStep (mountState ⟨0, 0, 0⟩) .manualRefresh = mountState ⟨0, 0, 0⟩ ∧
    (chartsStep (mountState ⟨0, 0, 0⟩) .timerTick).pending.length =
      (mountState ⟨0, 0, 0⟩).pending.length + 1 :=
  ⟨(refresh_dropped_timer_not (mountState ⟨0, 0, 0⟩)).1 rfl,
   (refresh_dropped_timer_not (mountState ⟨0, 0, 0⟩)).2⟩

/-- C3: a successful pull stores the decoded server payload verbatim as
the displayed dataset (round-trip identity, no reshaping, no merge with
prior data), sets the connection state to Connected and the data source
to Remote (`useSessionData = true`). -/
theorem fetch_success_identity (s : ChartsState) (cap : Stats) (p : ServerPayload)
    (t : Nat) (h : cap ∈ s.pending) :
    (chartsStep s (.complete cap (.success p) t)).chartData = some (.remote p) ∧
    (chartsStep s (.complete cap (.success p) t)).connectionStatus = .connected ∧
    (chartsStep s (.complete cap (.success p) t)).useSessionData = true := by
  simp [chartsStep, h]

/-- Witness for C3: the mount fetch succeeding with a concrete payload
stores exactly that payload. -/
theorem fetch_success_identity_witness :
    (chartsStep (mountState ⟨0, 0, 0⟩)
        (.complete ⟨0, 0, 0⟩
          (.success ⟨7, ⟨50, 5, 45, 10, some "session_1"⟩,
            ⟨[1], [2], [3]⟩, ⟨["a"], [4]⟩, ⟨["b"], [5]⟩⟩) 0)).chartData =
      some (.remote ⟨7, ⟨50, 5, 45, 10, some "session_1"⟩,
        ⟨[1], [2], [3]⟩, ⟨["a"], [4]⟩, ⟨["b"], [5]⟩⟩) :=
  (fetch_success_identity (mountState ⟨0, 0, 0⟩) ⟨0, 0, 0⟩
    ⟨7, ⟨50, 5, 45, 10, some "session_1"⟩, ⟨[1], [2], [3]⟩, ⟨["a"], [4]⟩,
      ⟨["b"], [5]⟩⟩ 0 (by decide)).1

/-- C8: a LocalStats change issues no pull and clears no fetch; while
the source kind is Synthesized (`useSessionData = false`) it
immediately re-synthesizes the displayed dataset from the new stats,
and while the source kind is Remote (`useSessionData = true`) it never
replaces the displayed dataset. -/
theorem stats_change_resync (s : ChartsState) (ns : Stats) (t : Nat) :
    (chartsStep s (.statsChange ns t)).pending = s.pending ∧
    (chartsStep s (.statsChange ns t)).isLoading = s.isLoading ∧
    (s.useSessionData = false →
      (chartsStep s (.statsChange ns t)).chartData =
        some (.generated (generateDataFromStats ns t))) ∧
    (s.useSessionData = true →
      (chartsStep s (.statsChange ns t)).chartData = s.chartData) := by
  cases hu : s.useSessionData <;> simp [chartsStep, hu]

/-- Witness for C8: with synthesized data current, a stats change
re-synthesizes from the new stats; with remote data current, it leaves
the dataset untouched. -/
theorem stats_change_resync_witness :
    (chartsStep { mountState ⟨0, 0, 0⟩ with useSessionData := false }
        (.statsChange ⟨100, 90, 10⟩ 0)).chartData =
      some (.generated (generateDataFromStats ⟨100, 90, 10⟩ 0)) ∧
    (chartsStep (mountState ⟨0, 0, 0⟩) (.statsChange ⟨100, 90, 10⟩ 0)).chartData =
      (mountState ⟨0, 0, 0⟩).chartData :=
  ⟨(stats_change_resync { mountState ⟨0, 0, 0⟩ with useSessionData := false }
      ⟨100, 90, 10⟩ 0).2.2.1 rfl,
   (stats_change_resync (mountState ⟨0, 0, 0⟩) ⟨100, 90, 10⟩ 0).2.2.2 rfl⟩

/-- C2: evaluation of the code at the failing trace.  Mount with stats
`{0,0,0}`; the mount fetch fails (the display falls back); the stats
prop changes to `{100,90,10}` (the display resynthesizes); a timer tick
starts a fetch through the interval's mount-time closure; that fetch
fails.  The failure handler calls `generateDataFromStats` on the stats
captured by the mount closure, `{0,0,0}`, not on the current stats
`{100,90,10}`, and since neither dependency of the
`[stats, useSessionData]` effect changed, nothing overwrites it: the
displayed dataset is the synthesis of stale stats, which differs from
the synthesis of the current stats. -/
theorem stale_stats_on_failure :
    (chartsRun (mountState ⟨0, 0, 0⟩)
        [.complete ⟨0, 0, 0⟩ .failure 0,
         .statsChange ⟨100, 90, 10⟩ 0,
         .timerTick,
         .complete ⟨0, 0, 0⟩ .failure 0]).chartData =
      some (.generated (generateDataFromStats ⟨0, 0, 0⟩ 0)) ∧
    (chartsRun (mountState ⟨0, 0, 0⟩)
        [.complete ⟨0, 0, 0⟩ .failure 0,
         .statsChange ⟨100, 90, 10⟩ 0,
         .timerTick,
         .complete ⟨0, 0, 0⟩ .failure 0]).statsProp = ⟨100, 90, 10⟩ ∧
    (chartsRun (mountState ⟨0, 0, 0⟩)
        [.complete ⟨0, 0, 0⟩ .failure 0,
         .statsChange ⟨100, 90, 10⟩ 0,
         .timerTick,
         .complete ⟨0, 0, 0⟩ .failure 0]).useSessionData = false ∧
    (chartsRun (mountState ⟨0, 0, 0⟩)
        [.complete ⟨0, 0, 0⟩ .failure 0,
         .statsChange ⟨100, 90, 10⟩ 0,
         .timerTick,
         .complete ⟨0, 0, 0⟩ .failure 0]).connectionStatus = .error ∧
    generateDataFromStats ⟨0, 0, 0⟩ 0 ≠ generateDataFromStats ⟨100, 90, 10⟩ 0 := by
  refine ⟨rfl, rfl, rfl, rfl, fun h => ?_⟩
  have h2 := congrArg (fun g => g.timeline_data.normal_counts) h
  exact absurd h2 (by decide)

/-- C4: for every LocalStats and clock instant (18 minutes past
midnight or later, so the displayed minute of day does not wrap), the
synthesized timeline has exactly 10 points at 2-minute spacing ordered
oldest first, the most recent point is `(normalCount, suspiciousCount)`
verbatim and each of the 9 earlier points is the floor-by-10 of those
counters; in particular for `{100, 90, 10}` the final point is
`(90, 10)` and the earlier nine are `(9, 1)`. -/
theorem synth_timeline_shape (s : Stats) (t : Nat)
    (h1 : 1080000 ≤ t) (h2 : 18 ≤ t / 60000 % 1440) :
    (generateDataFromStats s t).timeline_data.timestamps =
      [t / 60000 % 1440 - 18, t / 60000 % 1440 - 16, t / 60000 % 1440 - 14,
       t / 60000 % 1440 - 12, t / 60000 % 1440 - 10, t / 60000 % 1440 - 8,
       t / 60000 % 1440 - 6, t / 60000 % 1440 - 4, t / 60000 % 1440 - 2,
       t / 60000 % 1440] ∧
    (generateDataFromStats s t).timeline_data.normal_counts =
      [s.normalCount / 10, s.normalCount / 10, s.normalCount / 10,
       s.normalCount / 10, s.normalCount / 10, s.normalCount / 10,
       s.normalCount / 10, s.normalCount / 10, s.normalCount / 10,
       s.normalCount] ∧
    (generateDataFromStats s t).timeline_data.anomaly_counts =
      [s.suspiciousCount / 10, s.suspiciousCount / 10, s.suspiciousCount / 10,
       s.suspiciousCount / 10, s.suspiciousCount / 10, s.suspiciousCount / 10,
       s.suspiciousCount / 10, s.suspiciousCount / 10, s.suspiciousCount / 10,
       s.suspiciousCount] ∧
    (generateDataFromStats ⟨100, 90, 10⟩ t).timeline_data.normal_counts =
      [9, 9, 9, 9, 9, 9, 9, 9, 9, 90] ∧
    (generateDataFromStats ⟨100, 90, 10⟩ t).timeline_data.anomaly_counts =
      [1, 1, 1, 1, 1, 1, 1, 1, 1, 10] := by
  refine ⟨?_, by simp [generateDataFromStats], by simp [generateDataFromStats],
    by simp [generateDataFromStats], by simp [generateDataFromStats]⟩
  simp only [generateDataFromStats, fmtTime, List.map_cons, List.map_nil,
    List.cons.injEq, and_true]
  omega

/-- Witness for C4: at two hours past midnight with stats
`{100, 90, 10}`, the timeline shows minute-of-day marks 102 through 120
at 2-minute spacing and the documented counter decay. -/
theorem synth_timeline_shape_witness :
    (generateDataFromStats ⟨100, 90, 10⟩ 7200000).timeline_data.timestamps =
      [102, 104, 106, 108, 110, 112, 114, 116, 118, 120] ∧
    (generateDataFromStats ⟨100, 90, 10⟩ 7200000).timeline_data.normal_counts =
      [9, 9, 9, 9, 9, 9, 9, 9, 9, 90] := by
  have h := synth_timeline_shape ⟨100, 90, 10⟩ 7200000 (by norm_num) (by norm_num)
  exact ⟨h.1.trans (by decide), h.2.2.2.1⟩

/-- C5: for every LocalStats, the synthesized threat-category counts
are `ceil(totalThreats * w)` for the weights 4/10, 3/10, 2/10, 1/10
with `totalThreats = max suspiciousCount 1`, and the hourly counts are
`ceil(baseRate * m)` over the multipliers 12, 8, 3, 2, 1, 2, 4, 6 with
`baseRate = suspiciousCount / totalLogs` when `totalLogs > 0` and 1/50
otherwise; every category count is at least 1, and on the all-zero
input the counts are `[1, 1, 1, 1]` — never all zero. -/
theorem synth_counts_formulas (s : Stats) (t : Nat) :
    (generateDataFromStats s t).threat_categories.counts =
      [⌈((max s.suspiciousCount 1 : ℕ) : ℚ) * (4/10)⌉,
       ⌈((max s.suspiciousCount 1 : ℕ) : ℚ) * (3/10)⌉,
       ⌈((max s.suspiciousCount 1 : ℕ) : ℚ) * (2/10)⌉,
       ⌈((max s.suspiciousCount 1 : ℕ) : ℚ) * (1/10)⌉] ∧
    (0 < s.totalLogs →
      (generateDataFromStats s t).hourly_patterns.threat_counts =
        [⌈(s.suspiciousCount : ℚ) / (s.totalLogs : ℚ) * 12⌉,
         ⌈(s.suspiciousCount : ℚ) / (s.totalLogs : ℚ) * 8⌉,
         ⌈(s.suspiciousCount : ℚ) / (s.totalLogs : ℚ) * 3⌉,
         ⌈(s.suspiciousCount : ℚ) / (s.totalLogs : ℚ) * 2⌉,
         ⌈(s.suspiciousCount : ℚ) / (s.totalLogs : ℚ) * 1⌉,
         ⌈(s.suspiciousCount : ℚ) / (s.totalLogs : ℚ) * 2⌉,
         ⌈(s.suspiciousCount : ℚ) / (s.totalLogs : ℚ) * 4⌉,
         ⌈(s.suspiciousCount : ℚ) / (s.totalLogs : ℚ) * 6⌉]) ∧
    (s.totalLogs = 0 →
      (generateDataFromStats s t).hourly_patterns.threat_counts =
        [⌈(1/50 : ℚ) * 12⌉, ⌈(1/50 : ℚ) * 8⌉, ⌈(1/50 : ℚ) * 3⌉,
         ⌈(1/50 : ℚ) * 2⌉, ⌈(1/50 : ℚ) * 1⌉, ⌈(1/50 : ℚ) * 2⌉,
         ⌈(1/50 : ℚ) * 4⌉, ⌈(1/50 : ℚ) * 6⌉]) ∧
    (∀ c ∈ (generateDataFromStats s t).threat_categories.counts, 1 ≤ c) ∧
    (generateDataFromStats ⟨0, 0, 0⟩ t).threat_categories.counts = [1, 1, 1, 1] := by
  have hform : ∀ s2 : Stats,
      (generateDataFromStats s2 t).threat_categories.counts =
        [⌈((max s2.suspiciousCount 1 : ℕ) : ℚ) * (4/10)⌉,
         ⌈((max s2.suspiciousCount 1 : ℕ) : ℚ) * (3/10)⌉,
         ⌈((max s2.suspiciousCount 1 : ℕ) : ℚ) * (2/10)⌉,
         ⌈((max s2.suspiciousCount 1 : ℕ) : ℚ) * (1/10)⌉] := by
    intro s2
    simp [generateDataFromStats]
  refine ⟨hform s, fun h => ?_, fun h => ?_, ?_, ?_⟩
  · simp [generateDataFromStats, h]
  · simp [generateDataFromStats, h]
  · rw [hform s]
    intro c hc
    have hT : (0 : ℚ) < ((max s.suspiciousCount 1 : ℕ) : ℚ) := by
      have : (0 : ℕ) < max s.suspiciousCount 1 :=
        lt_of_lt_of_le Nat.zero_lt_one (le_max_right _ _)
      exact_mod_cast this
    simp only [List.mem_cons, List.not_mem_nil, or_false] at hc
    rcases hc with h1 | h1 | h1 | h1 <;> subst h1
    · have hpos := Int.ceil_pos.mpr
        (mul_pos hT (show (0 : ℚ) < 4/10 by norm_num))
      omega
    · have hpos := Int.ceil_pos.mpr
        (mul_pos hT (show (0 : ℚ) < 3/10 by norm_num))
      omega
    · have hpos := Int.ceil_pos.mpr
        (mul_pos hT (show (0 : ℚ) < 2/10 by norm_num))
      omega
    · have hpos := Int.ceil_pos.mpr
        (mul_pos hT (show (0 : ℚ) < 1/10 by norm_num))
      omega
  · rw [hform ⟨0, 0, 0⟩]
    simp only [show (⟨0, 0, 0⟩ : Stats).suspiciousCount = 0 from rfl,
      Nat.zero_max, Nat.cast_one]
    rw [show (⌈(1 : ℚ) * (4/10)⌉) = 1 from ceilQ_eval _ 1 (by norm_num) (by norm_num),
      show (⌈(1 : ℚ) * (3/10)⌉) = 1 from ceilQ_eval _ 1 (by norm_num) (by norm_num),
      show (⌈(1 : ℚ) * (2/10)⌉) = 1 from ceilQ_eval _ 1 (by norm_num) (by norm_num),
      show (⌈(1 : ℚ) * (1/10)⌉) = 1 from ceilQ_eval _ 1 (by norm_num) (by norm_num)]

/-- Witness for C5: Scenario A stats `{100, 90, 10}` give category
counts `[4, 3, 2, 1]` and hourly counts `[2, 1, 1, 1, 1, 1, 1, 1]`. -/
theorem synth_counts_formulas_witness :
    (generateDataFromStats ⟨100, 90, 10⟩ 0).threat_categories.counts =
      [4, 3, 2, 1] ∧
    (generateDataFromStats ⟨100, 90, 10⟩ 0).hourly_patterns.threat_counts =
      [2, 1, 1, 1, 1, 1, 1, 1] := by
  have h := synth_counts_formulas ⟨100, 90, 10⟩ 0
  constructor
  · rw [h.1]
    rw [show (max (⟨100, 90, 10⟩ : Stats).suspiciousCount 1) = 10 from rfl]
    rw [show (⌈((10 : ℕ) : ℚ) * (4/10)⌉) = 4 from
        ceilQ_eval _ 4 (by push_cast ; norm_num) (by push_cast ; norm_num),
      show (⌈((10 : ℕ) : ℚ) * (3/10)⌉) = 3 from
        ceilQ_eval _ 3 (by push_cast ; norm_num) (by push_cast ; norm_num),
      show (⌈((10 : ℕ) : ℚ) * (2/10)⌉) = 2 from
        ceilQ_eval _ 2 (by push_cast ; norm_num) (by push_cast ; norm_num),
      show (⌈((10 : ℕ) : ℚ) * (1/10)⌉) = 1 from
        ceilQ_eval _ 1 (by push_cast ; norm_num) (by push_cast ; norm_num)]
  · rw [h.2.1 (by decide)]
    rw [show ((⟨100, 90, 10⟩ : Stats).suspiciousCount : ℚ) = ((10 : ℕ) : ℚ) from rfl,
      show ((⟨100, 90, 10⟩ : Stats).totalLogs : ℚ) = ((100 : ℕ) : ℚ) from rfl]
    rw [show (⌈((10 : ℕ) : ℚ) / ((100 : ℕ) : ℚ) * 12⌉) = 2 from
        ceilQ_eval _ 2 (by push_cast ; norm_num) (by push_cast ; norm_num),
      show (⌈((10 : ℕ) : ℚ) / ((100 : ℕ) : ℚ) * 8⌉) = 1 from
        ceilQ_eval _ 1 (by push_cast ; norm_num) (by push_cast ; norm_num),
      show (⌈((10 : ℕ) : ℚ) / ((100 : ℕ) : ℚ) * 3⌉) = 1 from
        ceilQ_eval _ 1 (by push_cast ; norm_num) (by push_cast ; norm_num),
      show (⌈((10 : ℕ) : ℚ) / ((100 : ℕ) : ℚ) * 2⌉) = 1 from
        ceilQ_eval _ 1 (by push_cast ; norm_num) (by push_cast ; norm_num),
      show (⌈((10 : ℕ) : ℚ) / ((100 : ℕ) : ℚ) * 1⌉) = 1 from
        ceilQ_eval _ 1 (by push_cast ; norm_num) (by push_cast ; norm_num),
      show (⌈((10 : ℕ) : ℚ) / ((100 : ℕ) : ℚ) * 4⌉) = 1 from
        ceilQ_eval _ 1 (by push_cast ; norm_num) (by push_cast ; norm_num),
      show (⌈((10 : ℕ) : ℚ) / ((100 : ℕ) : ℚ) * 6⌉) = 1 from
        ceilQ_eval _ 1 (by push_cast ; norm_num) (by push_cast ; norm_num)]

/-- C6 counterexample: `generateDataFromStats` reads the ambient clock
for the timeline timestamps, so two invocations with the same
LocalStats at different instants (here two minutes apart) produce
different ChartDatasets — the claim of determinism in the LocalStats
argument alone fails on the timestamps. -/
theorem synth_clock_dependent :
    generateDataFromStats ⟨100, 90, 10⟩ 0 ≠ generateDataFromStats ⟨100, 90, 10⟩ 120000 := by
  intro h
  have h2 := congrArg (fun g => g.timeline_data.timestamps) h
  exact absurd h2 (by decide)

/-- C6 amended: `generateDataFromStats` is deterministic in the pair
(LocalStats, clock instant): with the clock instant fixed, equal
LocalStats give identical output, and every component except the
timeline timestamps depends on the LocalStats alone. -/
theorem synth_deterministic (s : Stats) (t1 t2 : Nat) :
    (generateDataFromStats s t1).threat_categories =
      (generateDataFromStats s t2).threat_categories ∧
    (generateDataFromStats s t1).hourly_patterns =
      (generateDataFromStats s t2).hourly_patterns ∧
    (generateDataFromStats s t1).timeline_data.normal_counts =
      (generateDataFromStats s t2).timeline_data.normal_counts ∧
    (generateDataFromStats s t1).timeline_data.anomaly_counts =
      (generateDataFromStats s t2).timeline_data.anomaly_counts ∧
    (generateDataFromStats s t1).data_source =
      (generateDataFromStats s t2).data_source ∧
    (t1 = t2 → generateDataFromStats s t1 = generateDataFromStats s t2) := by
  refine ⟨?_, ?_, ?_, ?_, ?_, fun h => by rw [h]⟩ <;>
    simp only [generateDataFromStats]

/-- Witness for C6 (amended): equal stats and equal instants give equal
output, and the category section agrees across distinct instants. -/
theorem synth_deterministic_witness :
    generateDataFromStats ⟨1, 2, 3⟩ 42 = generateDataFromStats ⟨1, 2, 3⟩ 42 ∧
    (generateDataFromStats ⟨1, 2, 3⟩ 42).threat_categories =
      (generateDataFromStats ⟨1, 2, 3⟩ 99).threat_categories :=
  ⟨(synth_deterministic ⟨1, 2, 3⟩ 42 42).2.2.2.2.2 rfl,
   (synth_deterministic ⟨1, 2, 3⟩ 42 99).1⟩

end DevSecOps
